import Mathlib

/-!
Shallow embedding of `app/backend/approaches/chatreadretrieveread.py`
(class `ChatReadRetrieveReadApproach`) and verification of its
specification.  Python strings are Lean `String`s (both count Unicode
code points), Python exceptions are an explicit error type, and the two
remote collaborators (the OpenAI completion / chat-completion services
and the Azure search client) are oracle functions returning `Except`.
-/

set_option maxRecDepth 80000

namespace ChatApp

/-- Python exceptions that the embedded code can raise, plus an
`external` constructor for arbitrary errors raised by a collaborator
service. -/
inductive PyErr where
  | indexError : PyErr
  | keyError : String → PyErr
  | unboundLocalError : String → PyErr
  | valueError : PyErr
  | external : String → PyErr
deriving Repr, DecidableEq

/-- A `{role, content}` chat message as produced by
`get_messages_from_prompt`. -/
structure Message where
  role : String
  content : String
deriving Repr, DecidableEq

/-- One conversation turn: Python dict `{"user": ..., "bot": ...}` where
the `"bot"` key may be absent (`none`). -/
structure Turn where
  user : String
  bot : Option String := none
deriving Repr, DecidableEq

/-- Embedding of Python `str.splitlines()` restricted to the line
terminators `"\n"`, `"\r"` and `"\r\n"` (the only ones occurring in
this code's strings). -/
def splitlinesAux : List Char → List Char → List String
  | [], cur => if cur.isEmpty then [] else [String.mk cur.reverse]
  | '\r' :: '\n' :: rest, cur => String.mk cur.reverse :: splitlinesAux rest []
  | '\n' :: rest, cur => String.mk cur.reverse :: splitlinesAux rest []
  | '\r' :: rest, cur => String.mk cur.reverse :: splitlinesAux rest []
  | c :: rest, cur => splitlinesAux rest (c :: cur)

/-- Python `prompt.splitlines()`. -/
def splitlines (s : String) : List String :=
  splitlinesAux s.data []

/-- The role-start marker `"<|im_start|>"`. -/
def imStart : String := "<|im_start|>"

/-- The role-end marker `"<|im_end|>"`. -/
def imEnd : String := "<|im_end|>"

/-- Embedding of Python `str.startswith` (`pre.data` is a prefix of
`s.data`; Python and Lean both index by code point). -/
def strStartsWith (s pre : String) : Bool :=
  pre.data.isPrefixOf s.data

/-- Embedding of Python slicing `s[n:]`. -/
def strDrop (s : String) (n : Nat) : String :=
  String.mk (s.data.drop n)

/-- Loop body of `get_messages_from_prompt`: walks the lines carrying
the Python local variable `role` (which is unbound, `none`, until the
first role-start line) and the accumulated `messages` list.  Reading
`role` before assignment raises `UnboundLocalError`. -/
def messagesLoop : List String → Option String → List Message →
    Except PyErr (List Message)
  | [], _, acc => .ok acc
  | line :: rest, role, acc =>
    if strStartsWith line imStart then
      messagesLoop rest (some (strDrop line imStart.length)) acc
    else if strStartsWith line imEnd then
      messagesLoop rest role acc
    else
      match role with
      | some r => messagesLoop rest role (acc ++ [⟨r, line⟩])
      | none => .error (.unboundLocalError "role")

/-- Embedding of `ChatReadRetrieveReadApproach.get_messages_from_prompt`
(lines 129-139 of the source). -/
def get_messages_from_prompt (prompt : String) : Except PyErr (List Message) :=
  messagesLoop (splitlines prompt) none []

/-- Specification-side message scan, written from the spec's words:
"lines beginning with a role-start marker declare the active role for
subsequent lines; lines beginning with a role-end marker are skipped;
all other lines are appended as content under the currently active
role."  A content line with no active role (a case the spec does not
describe) contributes nothing. -/
def specMessages : List String → Option String → List Message
  | [], _ => []
  | line :: rest, role =>
    if strStartsWith line imStart then
      specMessages rest (some (strDrop line imStart.length))
    else if strStartsWith line imEnd then
      specMessages rest role
    else
      (match role with
       | some r => [⟨r, line⟩]
       | none => []) ++ specMessages rest role

/-- A line list is well-formed for the message scan when every line
preceding the first role-start line is a role-end line (so the Python
`role` variable is never read unbound). -/
def wfLines : List String → Bool
  | [] => true
  | l :: ls =>
    strStartsWith l imStart || (strStartsWith l imEnd && wfLines ls)

theorem messagesLoop_some (lines : List String) :
    ∀ (r : String) (acc : List Message),
      messagesLoop lines (some r) acc =
        .ok (acc ++ specMessages lines (some r)) := by
  induction lines with
  | nil => intro r acc; simp [messagesLoop, specMessages]
  | cons line rest ih =>
    intro r acc
    by_cases hs : strStartsWith line imStart
    · simp [messagesLoop, specMessages, hs, ih]
    · by_cases he : strStartsWith line imEnd
      · simp [messagesLoop, specMessages, hs, he, ih]
      · simp [messagesLoop, specMessages, hs, he, ih]

theorem messagesLoop_wf (lines : List String) (h : wfLines lines = true) :
    messagesLoop lines none [] = .ok (specMessages lines none) := by
  induction lines with
  | nil => simp [messagesLoop, specMessages]
  | cons line rest ih =>
    by_cases hs : strStartsWith line imStart
    · simp [messagesLoop, specMessages, hs, messagesLoop_some]
    · have he : strStartsWith line imEnd = true := by
        simp [wfLines, hs] at h
        exact h.1
      have hwf : wfLines rest = true := by
        simp [wfLines, hs] at h
        exact h.2
      simp [messagesLoop, specMessages, hs, he, ih hwf]

/-- Modelled Python `str.format(**fields)` for templates whose
replacement fields are simple `{name}` references (no conversions,
format specs or indexing — none occur in this module): a single
left-to-right pass over the template; `{{`/`}}` are literal braces, an
unknown field name raises `KeyError`, an unmatched brace raises
`ValueError`; substituted values are emitted verbatim, never rescanned.
The first argument is `none` while scanning literal text and
`some nameAcc` while collecting a replacement-field name. -/
def fmtAux (fields : List (String × String)) :
    Option (List Char) → List Char → Except PyErr (List Char)
  | none, [] => .ok []
  | none, '\x7b' :: '\x7b' :: rest =>
    (fmtAux fields none rest).map (fun out => '\x7b' :: out)
  | none, '\x7b' :: rest => fmtAux fields (some []) rest
  | none, '\x7d' :: '\x7d' :: rest =>
    (fmtAux fields none rest).map (fun out => '\x7d' :: out)
  | none, '\x7d' :: _ => .error .valueError
  | none, c :: rest => (fmtAux fields none rest).map (fun out => c :: out)
  | some _, [] => .error .valueError
  | some nameAcc, '\x7d' :: rest =>
    (match fields.lookup (String.mk nameAcc) with
     | some v => (fmtAux fields none rest).map (fun out => v.data ++ out)
     | none => .error (.keyError (String.mk nameAcc)))
  | some nameAcc, c :: rest => fmtAux fields (some (nameAcc ++ [c])) rest

/-- Python `template.format(**fields)`. -/
def pyFormat (fields : List (String × String)) (template : String) :
    Except PyErr String :=
  (fmtAux fields none template.data).map String.mk

/-- Class attribute `ChatReadRetrieveReadApproach.prompt_prefix`,
copied verbatim from the source (apostrophes and literal braces would be
written with `\x27`/`\x7b` escapes; this template has none outside its
replacement fields). -/
def prompt_prefix : String := "<|im_start|>system
O assistente auxilia os funcionários da empresa com dúvidas sobre as leis trabalhistas e penalidades cabíveis. Seja breve em suas respostas.
Responda APENAS com os fatos listados na lista de fontes abaixo. Se não houver informações suficientes abaixo, diga que não sabe. Não gere respostas que não usem as fontes abaixo. Se fazer uma pergunta esclarecedora ao usuário ajudar, faça a pergunta.
Para obter informações tabulares, retorne-as como uma tabela html. Não retorne o formato de remarcação.
Cada fonte tem um nome seguido de dois pontos e as informaçõeses reais, sempre inclua o nome da fonte para cada fato que você usar na resposta. Use colchetes para referenciar a fonte, por exemplo [info1.txt]. Não combine fontes, liste cada fonte separadamente, por exemplo [info1.txt][info2.pdf].
{follow_up_questions_prompt}
{injected_prompt}
Sources:
{sources}
<|im_end|>
{chat_history}
"

/-- Class attribute
`ChatReadRetrieveReadApproach.follow_up_questions_prompt_content`,
copied verbatim from the source (`\x27` is the apostrophe). -/
def follow_up_questions_prompt_content : String := "Gere três breves perguntas de acompanhamento que o usuário provavelmente faria a seguir sobre as leis trabalhistas (Consolidação das Leis do Trabalho - CLT) e manual do funcionário.
     Use colchetes angulares duplos para fazer referência às perguntas, por exemplo <<Existem exclusões de penalidades?>>.
     Tente não repetir perguntas que já foram feitas.
     Gere apenas perguntas e não gere nenhum texto antes ou depois das perguntas, como \x27Próximas perguntas\x27"

/-- Class attribute `ChatReadRetrieveReadApproach.query_prompt_template`,
copied verbatim from the source. -/
def query_prompt_template : String := "Segue abaixo um histórico da conversa até o momento, e uma nova pergunta feita pelo usuário que precisa ser respondida através de uma busca em uma base de conhecimento sobre Consolidação das Leis do Trabalho (CLT) e o manual do empregado.
     Gere uma consulta de pesquisa com base na conversa e na nova pergunta.
     Não inclua nomes de arquivos de origem citados e nomes de documentos, por exemplo, info.txt ou doc.pdf nos termos de consulta de pesquisa.
     Não inclua nenhum texto dentro de [] ou <<>> nos termos da consulta de pesquisa.
     Pesquise no idioma da entrada original da pergunta, nunca tente traduzi-la para o inglês.

Chat History:
{chat_history}

Question:
{question}

Search query:
"

/-- Modelled from the spec: the helper `nonewlines` (module `text`,
imported by the source but not included under `src/`) strips embedded
line breaks from a string, modelled as replacing each line-break
character (`'\n'`, `'\r'`) with a space. -/
def nonewlines (s : String) : String :=
  String.mk (s.data.map (fun c => if c = '\n' ∨ c = '\r' then ' ' else c))

/-- Embedding of Python `exclude_category.replace("'", "''")`
specialised to its one-character pattern: each apostrophe (`\x27`) is
replaced by two. -/
def escapeQuotesAux : List Char → List Char
  | [] => []
  | c :: cs =>
    if c = '\x27' then '\x27' :: '\x27' :: escapeQuotesAux cs
    else c :: escapeQuotesAux cs

/-- Python `exclude_category.replace("'", "''")`. -/
def escapeQuotes (s : String) : String :=
  String.mk (escapeQuotesAux s.data)

/-- Every apostrophe in a character list occurs as part of an adjacent
pair (no lone, unescaped apostrophe survives). -/
def pairedQuotes : List Char → Bool
  | [] => true
  | '\x27' :: '\x27' :: cs => pairedQuotes cs
  | '\x27' :: _ => false
  | _ :: cs => pairedQuotes cs

/-- The rendering of one turn inside the loop of
`get_chat_history_as_text` (line 121 of the source): the text prepended
to `history_text` for turn `h`. -/
def renderTurn (h : Turn) : String :=
  "<|im_start|>user" ++ "\n" ++ h.user ++ "\n" ++ "<|im_end|>" ++ "\n" ++
    "<|im_start|>assistant" ++ "\n" ++
    (match h.bot with
     | some b => if b ≠ "" then b ++ "<|im_end|>" else ""
     | none => "") ++ "\n"

/-- The `for h in reversed(...)` loop of `get_chat_history_as_text`:
prepends each turn's rendering and stops once the accumulated text
exceeds `approx_max_tokens * 4` characters. -/
def historyLoop (approx_max_tokens : Nat) : List Turn → String → String
  | [], acc => acc
  | h :: rest, acc =>
    let acc' := renderTurn h ++ acc
    if approx_max_tokens * 4 < acc'.length then acc'
    else historyLoop approx_max_tokens rest acc'

/-- Embedding of
`ChatReadRetrieveReadApproach.get_chat_history_as_text` (lines 118-124
of the source); `history[:-1]` is `List.dropLast`. -/
def get_chat_history_as_text (history : List Turn)
    (include_last_turn : Bool := true) (approx_max_tokens : Nat := 1000) :
    String :=
  historyLoop approx_max_tokens
    (List.reverse (if include_last_turn then history else history.dropLast)) ""

/-- Chronological concatenation of the renderings of a list of turns:
what `historyLoop` produces when it retains exactly these turns. -/
def renderSuffix : List Turn → String
  | [] => ""
  | t :: ts => renderTurn t ++ renderSuffix ts

/-- Arguments of the `openai.Completion.create` call (step 1). -/
structure CompletionArgs where
  engine : String
  prompt : String
  temperature : Float
  max_tokens : Nat
  n : Nat
  stop : List String

/-- Arguments of the `search_client.search` call (step 2);
`semantic = true` means `query_type=QueryType.SEMANTIC` was passed,
`none` fields model omitted keyword arguments. -/
structure SearchArgs where
  search_text : String
  filter : Option String
  semantic : Bool
  query_language : Option String
  query_speller : Option String
  semantic_configuration_name : Option String
  top : Nat
  query_caption : Option String
deriving Repr, DecidableEq

/-- One search result record; `sourcepage` and `content` stand for
`doc[self.sourcepage_field]` and `doc[self.content_field]`, and
`captions` for the texts of `doc['@search.captions']`. -/
structure Doc where
  sourcepage : String
  content : String
  captions : List String
deriving Repr, DecidableEq

/-- Arguments of the `openai.ChatCompletion.create` call (step 3). -/
structure ChatArgs where
  deployment_id : String
  model : String
  messages : List Message
  temperature : Float
  max_tokens : Nat
  n : Nat
  stop : List String

/-- The two remote collaborators, as oracles: each returns the piece of
its response that `run` reads (`completion.choices[0].text`, the result
record list, `chatCompletion.choices[0].message.content`) or an error. -/
structure Collab where
  completionCreate : CompletionArgs → Except PyErr String
  searchRun : SearchArgs → Except PyErr (List Doc)
  chatCreate : ChatArgs → Except PyErr String

/-- The constructor-supplied configuration of
`ChatReadRetrieveReadApproach` that `run` reads (the two field names
are folded into `Doc`). -/
structure Config where
  chatgpt_deployment : String
  gpt_deployment : String

/-- The `overrides` dict restricted to the keys `run` reads; boolean
fields stand for Python truthiness of the stored value, `none` for an
absent key. -/
structure Overrides where
  semantic_captions : Bool := false
  top : Option Nat := none
  exclude_category : Option String := none
  semantic_ranker : Bool := false
  suggest_followup_questions : Bool := false
  prompt_template : Option String := none
  temperature : Option Float := none

/-- A record of one external call made by `run`, in order. -/
inductive Call where
  | completion : CompletionArgs → Call
  | searchCall : SearchArgs → Call
  | chat : ChatArgs → Call

/-- The response envelope returned by `run`. -/
structure Response where
  data_points : List String
  answer : String
  thoughts : String
deriving Repr, DecidableEq

/-- Line 58 of the source: `top = overrides.get("top") or 3`
(`0` is falsy). -/
def effectiveTop (o : Overrides) : Nat :=
  match o.top with
  | some n => if n ≠ 0 then n else 3
  | none => 3

/-- Line 59: `exclude_category = overrides.get("exclude_category") or
None` (the empty string is falsy). -/
def effectiveExcludeCategory (o : Overrides) : Option String :=
  match o.exclude_category with
  | some s => if s ≠ "" then some s else none
  | none => none

/-- Line 60: `filter = "category ne '{}'".format(
exclude_category.replace("'", "''")) if exclude_category else None`. -/
def buildFilter (o : Overrides) : Option String :=
  match effectiveExcludeCategory o with
  | some c => some ("category ne \x27" ++ escapeQuotes c ++ "\x27")
  | none => none

/-- `overrides.get("temperature") or 0.7` (both `0.0` and `-0.0` are
falsy). -/
def effectiveTemperature (o : Overrides) : Float :=
  match o.temperature with
  | some t => if t == 0.0 then 0.7 else t
  | none => 0.7

/-- Lines 75-84: the two retrieval call shapes — semantic mode with the
extra parameters, or plain mode with only query, filter and top. -/
def mkSearchArgs (o : Overrides) (q : String) (filter : Option String)
    (top : Nat) : SearchArgs :=
  if o.semantic_ranker then
    { search_text := q, filter := filter, semantic := true,
      query_language := some "en-us", query_speller := some "lexicon",
      semantic_configuration_name := some "default", top := top,
      query_caption :=
        if o.semantic_captions then some "extractive|highlight-false"
        else none }
  else
    { search_text := q, filter := filter, semantic := false,
      query_language := none, query_speller := none,
      semantic_configuration_name := none, top := top,
      query_caption := none }

/-- Lines 85-88: per-result content extraction. -/
def extractResult (use_semantic_captions : Bool) (d : Doc) : String :=
  if use_semantic_captions then
    d.sourcepage ++ ": " ++ nonewlines (String.intercalate " . " d.captions)
  else
    d.sourcepage ++ ": " ++ nonewlines d.content

/-- Lines 94-100: the three-way prompt resolution — no override /
`">>>"`-prefixed injection into the default template / full template
replacement. -/
def resolvePrompt (o : Overrides) (content chatHist followUp : String) :
    Except PyErr String :=
  match o.prompt_template with
  | none =>
    pyFormat [("injected_prompt", ""), ("sources", content),
      ("chat_history", chatHist), ("follow_up_questions_prompt", followUp)]
      prompt_prefix
  | some po =>
    if strStartsWith po ">>>" then
      pyFormat [("injected_prompt", strDrop po 3 ++ "\n"), ("sources", content),
        ("chat_history", chatHist), ("follow_up_questions_prompt", followUp)]
        prompt_prefix
    else
      pyFormat [("sources", content), ("chat_history", chatHist),
        ("follow_up_questions_prompt", followUp)] po

/-- Embedding of Python `prompt.replace('\n', '<br>')` specialised to
its one-character pattern. -/
def replaceNewlinesBr : List Char → List Char
  | [] => []
  | '\n' :: rest => '<' :: 'b' :: 'r' :: '>' :: replaceNewlinesBr rest
  | c :: rest => c :: replaceNewlinesBr rest

/-- The `thoughts` field of the response envelope (line 116). -/
def mkThoughts (q prompt : String) : String :=
  "Searched for:<br>" ++ q ++ "<br><br>Prompt:<br>" ++
    String.mk (replaceNewlinesBr prompt.data)

/-- Embedding of `ChatReadRetrieveReadApproach.run` (lines 56-116 of
the source).  Returns the result (response envelope or the first
uncaught exception) together with the ordered list of external calls
made.  `history[-1]` on an empty history raises `IndexError`. -/
def run (cfg : Config) (env : Collab) (history : List Turn)
    (o : Overrides) : Except PyErr Response × List Call :=
  let use_semantic_captions := o.semantic_captions
  let top := effectiveTop o
  let filter := buildFilter o
  match history.getLast? with
  | none => (.error .indexError, [])
  | some lastTurn =>
    match pyFormat
        [("chat_history", get_chat_history_as_text history false 1000),
         ("question", lastTurn.user)] query_prompt_template with
    | .error e => (.error e, [])
    | .ok prompt0 =>
      let cargs : CompletionArgs :=
        { engine := cfg.gpt_deployment, prompt := prompt0,
          temperature := 0.0, max_tokens := 32, n := 1, stop := ["\n"] }
      match env.completionCreate cargs with
      | .error e => (.error e, [.completion cargs])
      | .ok q =>
        let sargs := mkSearchArgs o q filter top
        match env.searchRun sargs with
        | .error e => (.error e, [.completion cargs, .searchCall sargs])
        | .ok r =>
          let results := r.map (extractResult use_semantic_captions)
          let content := String.intercalate "\n" results
          let follow_up :=
            if o.suggest_followup_questions then
              follow_up_questions_prompt_content
            else ""
          match resolvePrompt o content
              (get_chat_history_as_text history true 1000) follow_up with
          | .error e => (.error e, [.completion cargs, .searchCall sargs])
          | .ok prompt1 =>
            match get_messages_from_prompt prompt1 with
            | .error e => (.error e, [.completion cargs, .searchCall sargs])
            | .ok messages =>
              let chargs : ChatArgs :=
                { deployment_id := cfg.chatgpt_deployment,
                  model := "gpt-3.5-turbo", messages := messages,
                  temperature := effectiveTemperature o, max_tokens := 1024,
                  n := 1, stop := ["<|im_end|>", "<|im_start|>"] }
              match env.chatCreate chargs with
              | .error e =>
                (.error e,
                 [.completion cargs, .searchCall sargs, .chat chargs])
              | .ok chatContent =>
                (.ok { data_points := results, answer := chatContent,
                       thoughts := mkThoughts q prompt1 },
                 [.completion cargs, .searchCall sargs, .chat chargs])

/-- Whether `sub` occurs as a contiguous substring of `s` (used to
state the spec's "must contain" properties). -/
def strContains (s sub : String) : Bool :=
  s.data.tails.any (fun t => sub.data.isPrefixOf t)

/-- Whether a recorded external call is the chat-completion call. -/
def isChatCall : Call → Bool
  | .chat _ => true
  | _ => false

/-- The literal text of `query_prompt_template` before its
`chat_history` replacement field. -/
def queryPromptHead : String := "Segue abaixo um histórico da conversa até o momento, e uma nova pergunta feita pelo usuário que precisa ser respondida através de uma busca em uma base de conhecimento sobre Consolidação das Leis do Trabalho (CLT) e o manual do empregado.
     Gere uma consulta de pesquisa com base na conversa e na nova pergunta.
     Não inclua nomes de arquivos de origem citados e nomes de documentos, por exemplo, info.txt ou doc.pdf nos termos de consulta de pesquisa.
     Não inclua nenhum texto dentro de [] ou <<>> nos termos da consulta de pesquisa.
     Pesquise no idioma da entrada original da pergunta, nunca tente traduzi-la para o inglês.

Chat History:
"

/-- The result of substituting `chat_history := ch` and
`question := q` into `query_prompt_template`: the template's literal
text with the two values spliced in. -/
def queryPromptRendered (ch q : String) : String :=
  String.mk (queryPromptHead.data ++ (ch.data ++ ("\n\nQuestion:\n".data ++
    (q.data ++ "\n\nSearch query:\n".data))))

/-- The literal text of `prompt_prefix` before its first replacement
field. -/
def promptPrefixHead : String := "<|im_start|>system
O assistente auxilia os funcionários da empresa com dúvidas sobre as leis trabalhistas e penalidades cabíveis. Seja breve em suas respostas.
Responda APENAS com os fatos listados na lista de fontes abaixo. Se não houver informações suficientes abaixo, diga que não sabe. Não gere respostas que não usem as fontes abaixo. Se fazer uma pergunta esclarecedora ao usuário ajudar, faça a pergunta.
Para obter informações tabulares, retorne-as como uma tabela html. Não retorne o formato de remarcação.
Cada fonte tem um nome seguido de dois pontos e as informaçõeses reais, sempre inclua o nome da fonte para cada fato que você usar na resposta. Use colchetes para referenciar a fonte, por exemplo [info1.txt]. Não combine fontes, liste cada fonte separadamente, por exemplo [info1.txt][info2.pdf].
"

/-- The result of substituting
`follow_up_questions_prompt := fu`, `injected_prompt := inj`,
`sources := src` and `chat_history := ch` into `prompt_prefix`: the
default template's literal text with the four values spliced in. -/
def defaultPromptRendered (fu inj src ch : String) : String :=
  String.mk (promptPrefixHead.data ++ (fu.data ++ ("\n".data ++
    (inj.data ++ ("\nSources:\n".data ++ (src.data ++
      ("\n<|im_end|>\n".data ++ (ch.data ++ "\n".data))))))))

theorem pyFormat_queryPrompt (ch q : String) :
    pyFormat [("chat_history", ch), ("question", q)] query_prompt_template =
      .ok (queryPromptRendered ch q) := rfl

theorem pyFormat_defaultPrompt (fu inj src ch : String) :
    pyFormat [("injected_prompt", inj), ("sources", src),
        ("chat_history", ch), ("follow_up_questions_prompt", fu)]
        prompt_prefix =
      .ok (defaultPromptRendered fu inj src ch) := rfl

theorem wfLines_defaultPrompt (fu inj src ch : String) :
    wfLines (splitlines (defaultPromptRendered fu inj src ch)) = true := rfl

/-- Formatting a template containing no brace character returns the
template unchanged. -/
theorem fmtAux_nobrace (fields : List (String × String)) :
    ∀ cs : List Char, (∀ c ∈ cs, c ≠ '\x7b' ∧ c ≠ '\x7d') →
      fmtAux fields none cs = .ok cs := by
  intro cs
  induction cs with
  | nil => intro _; rfl
  | cons c rest ih =>
    intro h
    have hc := h c (by simp)
    have hrest : ∀ x ∈ rest, x ≠ '\x7b' ∧ x ≠ '\x7d' := by
      intro x hx; exact h x (by simp [hx])
    simp [fmtAux, Except.map, hc.1, hc.2, ih hrest]

theorem renderSuffix_append (xs ys : List Turn) :
    renderSuffix (xs ++ ys) = renderSuffix xs ++ renderSuffix ys := by
  induction xs with
  | nil => simp [renderSuffix]
  | cons x xs ih => simp [renderSuffix, ih, String.append_assoc]

theorem historyLoop_spec (B : Nat) (ts : List Turn) :
    ∀ acc : String, ∃ k, k ≤ ts.length ∧
      historyLoop B ts.reverse acc = renderSuffix (ts.drop k) ++ acc ∧
      (k = 0 ∨ B * 4 < (renderSuffix (ts.drop k) ++ acc).length) ∧
      ∀ j, k < j → j < ts.length →
        (renderSuffix (ts.drop j) ++ acc).length ≤ B * 4 := by
  induction ts using List.reverseRecOn with
  | nil =>
    intro acc
    exact ⟨0, by simp [historyLoop, renderSuffix]⟩
  | append_singleton ts t ih =>
    intro acc
    rw [List.reverse_append]
    simp only [List.reverse_singleton, List.singleton_append]
    by_cases hif : B * 4 < (renderTurn t ++ acc).length
    · refine ⟨ts.length, by simp, ?_, ?_, ?_⟩
      · simp only [historyLoop]
        rw [if_pos hif, List.drop_left]
        simp [renderSuffix, String.append_empty]
      · right
        rw [List.drop_left]
        simpa [renderSuffix, String.append_empty] using hif
      · intro j hj1 hj2
        simp at hj2
        omega
    · obtain ⟨k, hk, heq, hcond, hmin⟩ := ih (renderTurn t ++ acc)
      have hdrop : (ts ++ [t]).drop k = ts.drop k ++ [t] :=
        List.drop_append_of_le_length hk
      refine ⟨k, by simp; omega, ?_, ?_, ?_⟩
      · simp only [historyLoop]
        rw [if_neg hif, heq, hdrop, renderSuffix_append]
        simp [renderSuffix, String.append_assoc, String.append_empty]
      · rcases hcond with h0 | hgt
        · exact Or.inl h0
        · right
          rw [hdrop, renderSuffix_append]
          simpa [renderSuffix, String.append_assoc] using hgt
      · intro j hj1 hj2
        simp at hj2
        rcases Nat.lt_or_ge j ts.length with hlt | hge
        · have := hmin j hj1 hlt
          have hdj : (ts ++ [t]).drop j = ts.drop j ++ [t] :=
            List.drop_append_of_le_length (Nat.le_of_lt hlt)
          rw [hdj, renderSuffix_append]
          simpa [renderSuffix, String.append_assoc] using this
        · have hj : j = ts.length := by omega
          subst hj
          rw [List.drop_left]
          simpa [renderSuffix, String.append_empty] using Nat.le_of_not_lt hif

theorem chatHistory_allBig (history : List Turn) (hne : history ≠ [])
    (hbig : ∀ t ∈ history, 1000 * 4 < (renderTurn t).length) :
    ∃ lastT, history.getLast? = some lastT ∧
      get_chat_history_as_text history true 1000 = renderTurn lastT := by
  rcases List.eq_nil_or_concat' history with h0 | ⟨ts, t, rfl⟩
  · exact absurd h0 hne
  refine ⟨t, by simp, ?_⟩
  unfold get_chat_history_as_text
  rw [if_pos rfl, List.reverse_append]
  simp only [List.reverse_singleton, List.singleton_append, historyLoop]
  rw [if_pos]
  · exact String.append_empty _
  · have := hbig t (by simp)
    simpa [String.append_empty] using this

theorem nonewlines_no_breaks (s : String) :
    '\n' ∉ (nonewlines s).data ∧ '\r' ∉ (nonewlines s).data := by
  constructor <;>
  · simp only [nonewlines, List.mem_map]
    rintro ⟨c, _, hc⟩
    by_cases h : c = '\n' ∨ c = '\r'
    · simp [h] at hc
    · simp [h] at hc
      simp_all

theorem pairedQuotes_escape : ∀ cs : List Char,
    pairedQuotes (escapeQuotesAux cs) = true := by
  intro cs
  induction cs with
  | nil => rfl
  | cons c rest ih =>
    by_cases hc : c = '\x27'
    · simp [escapeQuotesAux, hc, pairedQuotes, ih]
    · simp [escapeQuotesAux, hc, pairedQuotes, ih]

/-- A 64-character string, doubled six times below to build a turn
whose rendering exceeds the 4000-character history budget. -/
def chunk64 : String :=
  "aaaaaaaaaaaaaaaaaaaaaaaaaaaaaaaaaaaaaaaaaaaaaaaaaaaaaaaaaaaaaaaa"

/-- A 4096-character string built by doubling `chunk64`. -/
def big4096 : String :=
  let a1 := chunk64 ++ chunk64
  let a2 := a1 ++ a1
  let a3 := a2 ++ a2
  let a4 := a3 ++ a3
  let a5 := a4 ++ a4
  a5 ++ a5

theorem big4096_length : big4096.length = 4096 := by
  have h : chunk64.length = 64 := rfl
  simp [big4096, String.length_append, h]

/-- Claim C1: `get_messages_from_prompt` scans the prompt line by line;
a role-start line sets the active role and yields no message, a
role-end line yields no message, and every other line yields one
message with the active role and that line as content — proved as
agreement with the spec-side scan `specMessages` on every prompt whose
lines are well-formed (no content line before the first role-start
line), together with the spec's concrete instance: a role-start line
followed by two content lines (and a role-end line) yields exactly one
message per content line, both tagged with that role. -/
theorem C1_message_parsing :
    (∀ p : String, wfLines (splitlines p) = true →
      get_messages_from_prompt p = .ok (specMessages (splitlines p) none)) ∧
    get_messages_from_prompt
        "<|im_start|>myrole\nfirst content\nsecond content\n<|im_end|>" =
      .ok [⟨"myrole", "first content"⟩, ⟨"myrole", "second content"⟩] := by
  constructor
  · intro p h
    exact messagesLoop_wf _ h
  · rfl

theorem C1_message_parsing_witness :
    wfLines (splitlines "<|im_end|>\n<|im_start|>r\nc") = true ∧
    get_messages_from_prompt "<|im_end|>\n<|im_start|>r\nc" =
      .ok (specMessages (splitlines "<|im_end|>\n<|im_start|>r\nc") none) :=
  ⟨rfl, C1_message_parsing.1 "<|im_end|>\n<|im_start|>r\nc" rfl⟩

/-- Claim C3: `get_chat_history_as_text` (default budget 1000 tokens ≈
4000 characters) retains a suffix of the history — the most recent
turns — stopping once the accumulated text exceeds the budget: the
result renders `history.drop k` in order, where either nothing was
dropped or the retained text already exceeds the budget, and every
shorter-dropped (older-including) suffix strictly beyond `k` fits the
budget; in particular when every turn's rendering alone exceeds 4000
characters only the most recent turn is retained. -/
theorem C3_history_truncation :
    (∀ history : List Turn, ∃ k, k ≤ history.length ∧
      get_chat_history_as_text history true 1000 =
        renderSuffix (history.drop k) ∧
      (k = 0 ∨ 1000 * 4 < (renderSuffix (history.drop k)).length) ∧
      ∀ j, k < j → j < history.length →
        (renderSuffix (history.drop j)).length ≤ 1000 * 4) ∧
    (∀ history : List Turn, history ≠ [] →
      (∀ t ∈ history, 1000 * 4 < (renderTurn t).length) →
      ∃ lastT, history.getLast? = some lastT ∧
        get_chat_history_as_text history true 1000 = renderTurn lastT) := by
  constructor
  · intro history
    obtain ⟨k, hk, heq, hcond, hmin⟩ := historyLoop_spec 1000 history ""
    have hdef : get_chat_history_as_text history true 1000 =
        historyLoop 1000 history.reverse "" := rfl
    refine ⟨k, hk, ?_, ?_, ?_⟩
    · rw [hdef, heq, String.append_empty]
    · rcases hcond with h0 | hgt
      · exact Or.inl h0
      · right
        rwa [String.append_empty] at hgt
    · intro j h1 h2
      have := hmin j h1 h2
      rwa [String.append_empty] at this
  · exact chatHistory_allBig

theorem C3_history_truncation_witness :
    (([⟨big4096, none⟩] : List Turn) ≠ []) ∧
    (∃ lastT,
      ([⟨big4096, none⟩] : List Turn).getLast? = some lastT ∧
      get_chat_history_as_text [⟨big4096, none⟩] true 1000 =
        renderTurn lastT) :=
  ⟨by simp,
   C3_history_truncation.2 [⟨big4096, none⟩]
     (by simp)
     (by
       intro t ht
       simp only [List.mem_singleton] at ht
       subst ht
       have h2 : ("<|im_start|>user" : String).length = 16 := rfl
       have h3 : ("\n" : String).length = 1 := rfl
       have h4 : ("<|im_end|>" : String).length = 10 := rfl
       have h5 : ("<|im_start|>assistant" : String).length = 21 := rfl
       have h6 : ("" : String).length = 0 := rfl
       simp only [renderTurn, String.length_append, big4096_length,
         h2, h3, h4, h5, h6]
       omega)⟩

/-- Claim C4: a non-empty `exclude_category` override is turned into
the filter `category ne '<value>'` with every embedded apostrophe
doubled (never left unescaped, witnessed by `pairedQuotes` on the
escaped text and by the `O'Reilly` instance), and an absent or empty
override yields no filter. -/
theorem C4_category_filter :
    (∀ (o : Overrides) (s : String), o.exclude_category = some s → s ≠ "" →
      buildFilter o =
        some ("category ne \x27" ++ escapeQuotes s ++ "\x27")) ∧
    (∀ o : Overrides,
      o.exclude_category = none ∨ o.exclude_category = some "" →
      buildFilter o = none) ∧
    (∀ s : String, pairedQuotes (escapeQuotes s).data = true) ∧
    strContains
      ((buildFilter { exclude_category := some "O\x27Reilly" }).getD "")
      "O\x27\x27Reilly" = true := by
  refine ⟨?_, ?_, ?_, rfl⟩
  · intro o s h hs
    simp [buildFilter, effectiveExcludeCategory, h, hs]
  · intro o h
    rcases h with h | h <;> simp [buildFilter, effectiveExcludeCategory, h]
  · intro s
    exact pairedQuotes_escape s.data

theorem C4_category_filter_witness :
    (({ exclude_category := some "O\x27Reilly" } :
        Overrides).exclude_category = some "O\x27Reilly") ∧
    ("O\x27Reilly" ≠ "") ∧
    buildFilter { exclude_category := some "O\x27Reilly" } =
      some ("category ne \x27" ++ escapeQuotes "O\x27Reilly" ++ "\x27") :=
  ⟨rfl, by decide,
   C4_category_filter.1 { exclude_category := some "O\x27Reilly" }
     "O\x27Reilly" rfl (by decide)⟩

/-- Claim C5: each extracted search-result item is the page identifier,
`": "`, then — with semantic captions on — the caption fragments joined
with `" . "` and line breaks stripped, and otherwise the raw content
field with line breaks stripped (`nonewlines` output never contains a
line-break character); with captions `["a", "b"]` the item is
`"page1.txt: a . b"`. -/
theorem C5_content_extraction :
    (∀ d : Doc, extractResult true d =
      d.sourcepage ++ ": " ++
        nonewlines (String.intercalate " . " d.captions)) ∧
    (∀ d : Doc, extractResult false d =
      d.sourcepage ++ ": " ++ nonewlines d.content) ∧
    (∀ s : String,
      '\n' ∉ (nonewlines s).data ∧ '\r' ∉ (nonewlines s).data) ∧
    extractResult true ⟨"page1.txt", "unused content", ["a", "b"]⟩ =
      "page1.txt: a . b" :=
  ⟨fun _ => rfl, fun _ => rfl, nonewlines_no_breaks, rfl⟩

/-- Claim C2: prompt resolution has three mutually exclusive paths on
`overrides["prompt_template"]`: absent → the default template with an
empty injection slot; beginning with `">>>"` → the remainder (plus a
newline) injected into the default template's injection slot, the rest
of the default template kept; any other value → the override string
itself is the template, with the same named slots substituted.  For
the override `">>>Be concise.\n"` the resulting prompt still contains
the default template's text and contains `"Be concise."`. -/
theorem C2_prompt_resolution :
    (∀ (o : Overrides) (c ch fu : String), o.prompt_template = none →
      resolvePrompt o c ch fu = .ok (defaultPromptRendered fu "" c ch)) ∧
    (∀ (o : Overrides) (po c ch fu : String), o.prompt_template = some po →
      strStartsWith po ">>>" = true →
      resolvePrompt o c ch fu =
        .ok (defaultPromptRendered fu (strDrop po 3 ++ "\n") c ch)) ∧
    (∀ (o : Overrides) (po c ch fu : String), o.prompt_template = some po →
      strStartsWith po ">>>" = false →
      resolvePrompt o c ch fu =
        pyFormat [("sources", c), ("chat_history", ch),
          ("follow_up_questions_prompt", fu)] po) ∧
    (∃ p,
      resolvePrompt { prompt_template := some ">>>Be concise.\n" }
          "SRC" "CH" "FU" = .ok p ∧
      strContains p "Be concise." = true ∧
      strContains p "O assistente auxilia os funcionários" = true ∧
      strContains p "Sources:\nSRC" = true) := by
  refine ⟨?_, ?_, ?_, ⟨_, rfl, rfl, rfl, rfl⟩⟩
  · intro o c ch fu h
    simp only [resolvePrompt, h]
    exact pyFormat_defaultPrompt fu "" c ch
  · intro o po c ch fu h hs
    simp only [resolvePrompt, h, hs, if_true]
    exact pyFormat_defaultPrompt fu (strDrop po 3 ++ "\n") c ch
  · intro o po c ch fu h hs
    simp [resolvePrompt, h, hs]

theorem C2_prompt_resolution_witness :
    (({ prompt_template := some ">>>Be concise.\n" } :
        Overrides).prompt_template = some ">>>Be concise.\n") ∧
    (strStartsWith ">>>Be concise.\n" ">>>" = true) ∧
    resolvePrompt { prompt_template := some ">>>Be concise.\n" }
        "S" "C" "F" =
      .ok (defaultPromptRendered "F" (strDrop ">>>Be concise.\n" 3 ++ "\n")
        "S" "C") :=
  ⟨rfl, rfl,
   C2_prompt_resolution.2.1 { prompt_template := some ">>>Be concise.\n" }
     ">>>Be concise.\n" "S" "C" "F" rfl rfl⟩

theorem messages_default (fu inj src ch : String) :
    get_messages_from_prompt (defaultPromptRendered fu inj src ch) =
      .ok (specMessages
        (splitlines (defaultPromptRendered fu inj src ch)) none) :=
  messagesLoop_wf _ (wfLines_defaultPrompt fu inj src ch)

/-- Claim C6: for every history with a last turn, the
query-reformulation completion call (the first external call `run`
makes) receives the query prompt template with the question slot equal
to the last turn's user text and the chat-history slot equal to the
history rendered with the include-last-turn flag false. -/
theorem C6_reformulation_args (cfg : Config) (env : Collab)
    (history : List Turn) (o : Overrides) (lastT : Turn)
    (hl : history.getLast? = some lastT) :
    ∃ rest, (run cfg env history o).2 =
      .completion
        { engine := cfg.gpt_deployment,
          prompt := queryPromptRendered
            (get_chat_history_as_text history false 1000) lastT.user,
          temperature := 0.0, max_tokens := 32, n := 1,
          stop := ["\n"] } :: rest := by
  simp only [run, hl, pyFormat_queryPrompt]
  set cargs : CompletionArgs :=
    { engine := cfg.gpt_deployment,
      prompt := queryPromptRendered
        (get_chat_history_as_text history false 1000) lastT.user,
      temperature := 0.0, max_tokens := 32, n := 1,
      stop := ["\n"] } with hcargs
  rcases h1 : env.completionCreate cargs with e | q
  · exact ⟨[], rfl⟩
  · dsimp only
    rcases h2 : env.searchRun
        (mkSearchArgs o q (buildFilter o) (effectiveTop o)) with e | r
    · exact ⟨_, rfl⟩
    · dsimp only
      rcases h3 : resolvePrompt o
          (String.intercalate "\n" (r.map (extractResult o.semantic_captions)))
          (get_chat_history_as_text history true 1000)
          (if o.suggest_followup_questions then
            follow_up_questions_prompt_content else "") with e | p1
      · exact ⟨_, rfl⟩
      · dsimp only
        rcases h4 : get_messages_from_prompt p1 with e | msgs
        · exact ⟨_, rfl⟩
        · dsimp only
          rcases h5 : env.chatCreate
              { deployment_id := cfg.chatgpt_deployment,
                model := "gpt-3.5-turbo", messages := msgs,
                temperature := effectiveTemperature o, max_tokens := 1024,
                n := 1, stop := ["<|im_end|>", "<|im_start|>"] } with e | ct
          · exact ⟨_, rfl⟩
          · exact ⟨_, rfl⟩

theorem C6_reformulation_args_witness :
    (([⟨"hi", none⟩] : List Turn).getLast? = some ⟨"hi", none⟩) ∧
    (∃ rest,
      (run ⟨"cd", "gd"⟩
          ⟨fun _ => .ok "q0", fun _ => .ok [], fun _ => .ok "a0"⟩
          [⟨"hi", none⟩] {}).2 =
        .completion
          { engine := "gd",
            prompt := queryPromptRendered
              (get_chat_history_as_text [⟨"hi", none⟩] false 1000) "hi",
            temperature := 0.0, max_tokens := 32, n := 1,
            stop := ["\n"] } :: rest) :=
  ⟨rfl,
   C6_reformulation_args ⟨"cd", "gd"⟩
     ⟨fun _ => .ok "q0", fun _ => .ok [], fun _ => .ok "a0"⟩
     [⟨"hi", none⟩] {} ⟨"hi", none⟩ rfl⟩

/-- Claim C7: retrieval parameters — an absent or falsy `top` override
defaults the result count to 3; with `semantic_ranker` truthy the
search call is in semantic mode with the query-language, speller,
semantic-configuration and (when captions are on) caption-extraction
parameters, and otherwise in plain mode with only query, filter and
top; with empty overrides `run`'s retrieval call has top 3, no filter,
non-semantic mode. -/
theorem C7_retrieval_params :
    (∀ o : Overrides, o.top = none ∨ o.top = some 0 →
      effectiveTop o = 3) ∧
    (∀ (o : Overrides) (q : String) (f : Option String) (t : Nat),
      o.semantic_ranker = true →
      mkSearchArgs o q f t =
        ⟨q, f, true, some "en-us", some "lexicon", some "default", t,
         if o.semantic_captions then some "extractive|highlight-false"
         else none⟩) ∧
    (∀ (o : Overrides) (q : String) (f : Option String) (t : Nat),
      o.semantic_ranker = false →
      mkSearchArgs o q f t = ⟨q, f, false, none, none, none, t, none⟩) ∧
    (∀ (cfg : Config) (history : List Turn) (q ct : String)
        (docs : List Doc), history ≠ [] →
      ∃ c rest,
        (run cfg ⟨fun _ => .ok q, fun _ => .ok docs, fun _ => .ok ct⟩
            history {}).2 =
          c :: .searchCall ⟨q, none, false, none, none, none, 3, none⟩ ::
            rest) := by
  refine ⟨?_, ?_, ?_, ?_⟩
  · intro o h
    rcases h with h | h <;> simp [effectiveTop, h]
  · intro o q f t h
    simp [mkSearchArgs, h]
  · intro o q f t h
    simp [mkSearchArgs, h]
  · intro cfg history q ct docs hne
    rcases List.eq_nil_or_concat' history with h0 | ⟨ts, t, rfl⟩
    · exact absurd h0 hne
    have hl : (ts ++ [t]).getLast? = some t := by simp
    simp only [run, hl, pyFormat_queryPrompt, resolvePrompt,
      pyFormat_defaultPrompt, messages_default]
    exact ⟨_, _, rfl⟩

theorem C7_retrieval_params_witness :
    (([⟨"hi", none⟩] : List Turn) ≠ []) ∧
    (∃ c rest,
      (run ⟨"cd", "gd"⟩
          ⟨fun _ => .ok "q0", fun _ => .ok [], fun _ => .ok "a0"⟩
          [⟨"hi", none⟩] {}).2 =
        c :: .searchCall ⟨"q0", none, false, none, none, none, 3, none⟩ ::
          rest) :=
  ⟨by simp,
   C7_retrieval_params.2.2.2 ⟨"cd", "gd"⟩ [⟨"hi", none⟩] "q0" "a0" []
     (by simp)⟩

/-- Claim C8: on a successful invocation (functional collaborators, no
prompt-template override) `run` returns the envelope whose `answer` is
the chat-completion service's returned text verbatim, whose
`data_points` is exactly the list of extracted per-result content
strings, and whose `thoughts` concatenates the derived search query and
the final assembled prompt with every line break rendered as `"<br>"`
(`mkThoughts` uses `replaceNewlinesBr`). -/
theorem C8_response_envelope (cfg : Config) (history : List Turn)
    (o : Overrides) (cq ct : String) (docs : List Doc)
    (hpt : o.prompt_template = none) (hne : history ≠ []) :
    (run cfg ⟨fun _ => .ok cq, fun _ => .ok docs, fun _ => .ok ct⟩
        history o).1 =
      .ok { data_points := docs.map (extractResult o.semantic_captions),
            answer := ct,
            thoughts := mkThoughts cq (defaultPromptRendered
              (if o.suggest_followup_questions then
                follow_up_questions_prompt_content else "")
              ""
              (String.intercalate "\n"
                (docs.map (extractResult o.semantic_captions)))
              (get_chat_history_as_text history true 1000)) } := by
  rcases List.eq_nil_or_concat' history with h0 | ⟨ts, t, rfl⟩
  · exact absurd h0 hne
  have hl : (ts ++ [t]).getLast? = some t := by simp
  simp only [run, hl, pyFormat_queryPrompt, resolvePrompt, hpt,
    pyFormat_defaultPrompt, messages_default]

theorem C8_response_envelope_witness :
    (({} : Overrides).prompt_template = none) ∧
    (([⟨"hi", none⟩] : List Turn) ≠ []) ∧
    (run ⟨"cd", "gd"⟩
        ⟨fun _ => .ok "q0", fun _ => .ok [⟨"p1.txt", "c1", ["cap"]⟩],
         fun _ => .ok "the answer"⟩
        [⟨"hi", none⟩] {}).1 =
      .ok { data_points :=
              ([⟨"p1.txt", "c1", ["cap"]⟩] : List Doc).map
                (extractResult ({} : Overrides).semantic_captions),
            answer := "the answer",
            thoughts := mkThoughts "q0" (defaultPromptRendered
              (if ({} : Overrides).suggest_followup_questions then
                follow_up_questions_prompt_content else "")
              ""
              (String.intercalate "\n"
                (([⟨"p1.txt", "c1", ["cap"]⟩] : List Doc).map
                  (extractResult ({} : Overrides).semantic_captions)))
              (get_chat_history_as_text [⟨"hi", none⟩] true 1000)) } :=
  ⟨rfl, by simp,
   C8_response_envelope ⟨"cd", "gd"⟩ [⟨"hi", none⟩] {} "q0" "the answer"
     [⟨"p1.txt", "c1", ["cap"]⟩] rfl (by simp)⟩

/-- Claim C9: `run` performs no local recovery, retry or translation of
errors — an empty history fails with the index error from `history[-1]`
before any external call, and whichever collaborator call fails first
(reformulation, retrieval or answer generation), `run`'s result is
exactly that collaborator's error, unchanged. -/
theorem C9_error_propagation :
    (∀ (cfg : Config) (env : Collab) (o : Overrides),
      run cfg env [] o = (.error .indexError, [])) ∧
    (∀ (cfg : Config) (env : Collab) (history : List Turn)
        (o : Overrides) (e : PyErr), history ≠ [] →
      (∀ a, env.completionCreate a = .error e) →
      (run cfg env history o).1 = .error e) ∧
    (∀ (cfg : Config) (history : List Turn) (o : Overrides) (e : PyErr)
        (cq : String) (cc : ChatArgs → Except PyErr String),
      history ≠ [] →
      (run cfg ⟨fun _ => .ok cq, fun _ => .error e, cc⟩ history o).1 =
        .error e) ∧
    (∀ (cfg : Config) (history : List Turn) (o : Overrides) (e : PyErr)
        (cq : String) (docs : List Doc),
      history ≠ [] → o.prompt_template = none →
      (run cfg ⟨fun _ => .ok cq, fun _ => .ok docs, fun _ => .error e⟩
          history o).1 = .error e) := by
  refine ⟨fun cfg env o => rfl, ?_, ?_, ?_⟩
  · intro cfg env history o e hne h
    rcases List.eq_nil_or_concat' history with h0 | ⟨ts, t, rfl⟩
    · exact absurd h0 hne
    have hl : (ts ++ [t]).getLast? = some t := by simp
    simp only [run, hl, pyFormat_queryPrompt, h]
  · intro cfg history o e cq cc hne
    rcases List.eq_nil_or_concat' history with h0 | ⟨ts, t, rfl⟩
    · exact absurd h0 hne
    have hl : (ts ++ [t]).getLast? = some t := by simp
    simp only [run, hl, pyFormat_queryPrompt]
  · intro cfg history o e cq docs hne hpt
    rcases List.eq_nil_or_concat' history with h0 | ⟨ts, t, rfl⟩
    · exact absurd h0 hne
    have hl : (ts ++ [t]).getLast? = some t := by simp
    simp only [run, hl, pyFormat_queryPrompt, resolvePrompt, hpt,
      pyFormat_defaultPrompt, messages_default]

theorem C9_error_propagation_witness :
    (([⟨"hi", none⟩] : List Turn) ≠ []) ∧
    (run ⟨"cd", "gd"⟩
        ⟨fun _ => .ok "q0", fun _ => .error (.external "search down"),
         fun _ => .ok "a0"⟩
        [⟨"hi", none⟩] {}).1 = .error (.external "search down") :=
  ⟨by simp,
   C9_error_propagation.2.2.1 ⟨"cd", "gd"⟩ [⟨"hi", none⟩] {}
     (.external "search down") "q0" (fun _ => .ok "a0") (by simp)⟩

/-- Claim C10 (implicit): `get_messages_from_prompt` reads the `role`
variable before any assignment whenever the first line begins with
neither marker, failing with the unbound-variable error; consequently a
full prompt-template override (no `">>>"` prefix, no replacement
fields) whose first line begins with neither marker makes `run` fail
with that error before the answer-generation call is made (no chat call
appears in the call trace). -/
theorem C10_unbound_role :
    (∀ (p l : String) (ls : List String),
      splitlines p = l :: ls →
      strStartsWith l imStart = false → strStartsWith l imEnd = false →
      get_messages_from_prompt p = .error (.unboundLocalError "role")) ∧
    (∀ (cfg : Config) (history : List Turn) (o : Overrides)
        (po cq : String) (docs : List Doc)
        (cc : ChatArgs → Except PyErr String) (l : String)
        (ls : List String),
      history ≠ [] →
      o.prompt_template = some po →
      strStartsWith po ">>>" = false →
      (∀ c ∈ po.data, c ≠ '\x7b' ∧ c ≠ '\x7d') →
      splitlines po = l :: ls →
      strStartsWith l imStart = false → strStartsWith l imEnd = false →
      (run cfg ⟨fun _ => .ok cq, fun _ => .ok docs, cc⟩ history o).1 =
          .error (.unboundLocalError "role") ∧
        (run cfg ⟨fun _ => .ok cq, fun _ => .ok docs, cc⟩
            history o).2.all (fun c => !(isChatCall c)) = true) := by
  have key : ∀ (p l : String) (ls : List String),
      splitlines p = l :: ls →
      strStartsWith l imStart = false → strStartsWith l imEnd = false →
      get_messages_from_prompt p = .error (.unboundLocalError "role") := by
    intro p l ls hsplit hl1 hl2
    show messagesLoop (splitlines p) none [] = _
    rw [hsplit]
    simp [messagesLoop, hl1, hl2]
  refine ⟨key, ?_⟩
  intro cfg history o po cq docs cc l ls hne hpo hms hbrace hsplit hl1 hl2
  rcases List.eq_nil_or_concat' history with h0 | ⟨ts, t, rfl⟩
  · exact absurd h0 hne
  have hl : (ts ++ [t]).getLast? = some t := by simp
  have hfmt : ∀ fields, pyFormat fields po = .ok po := by
    intro fields
    show (fmtAux fields none po.data).map String.mk = .ok po
    rw [fmtAux_nobrace fields po.data hbrace]
    rfl
  have hmsg := key po l ls hsplit hl1 hl2
  constructor <;>
    simp [run, hl, pyFormat_queryPrompt, resolvePrompt, hpo, hms, hfmt,
      hmsg, isChatCall]

theorem C10_unbound_role_witness :
    (splitlines "Answer briefly.\nBe nice." =
      "Answer briefly." :: ["Be nice."]) ∧
    (strStartsWith "Answer briefly." imStart = false) ∧
    (strStartsWith "Answer briefly." imEnd = false) ∧
    get_messages_from_prompt "Answer briefly.\nBe nice." =
      .error (.unboundLocalError "role") :=
  ⟨rfl, rfl, rfl,
   C10_unbound_role.1 "Answer briefly.\nBe nice." "Answer briefly."
     ["Be nice."] rfl rfl rfl⟩

end ChatApp
